import Mathlib

/-!
Shallow embedding of `twirpotel.go` (package twirpotel), an OpenTelemetry
tracing interceptor for twirp servers and clients, together with theorems
about its behavior.

Modelling conventions:
* Go `string` is Lean `String`; all attribute values in this package are
  string-valued, so `attribute.Value` is modelled as `String` and
  `attribute.StringValue` is the identity.
* A Go `error` interface value is `Option GoError`: `none` for a nil error,
  `some e` otherwise.  A non-nil error either implements `twirp.Error`
  (constructor `GoError.twirpError`, carrying `Code()` and `Msg()`) or is a
  plain error (constructor `GoError.plain`, carrying its `Error()` text);
  this mirrors the type assertion `err.(twirp.Error)` in the source.
* `context.Context` is modelled as the data this package reads from it:
  the twirp package/service/method names (each independently optional,
  matching `twirp.PackageName(ctx)` and friends returning `("", false)`
  when absent) and the span installed by `trace.SpanFromContext`.
* A panic of the wrapped dispatch function is modelled by the `Outcome`
  type; Go `defer span.End()` runs on both the normal and the unwinding
  exit path, which the embedding makes explicit in `finishSpan`.
-/

namespace Twirpotel

/-- `InstrumentationName` constant (twirpotel.go line 18). -/
def InstrumentationName : String := "github.com/bakins/twirpotel"

/-- `PackageNameKey = attribute.Key("twirp.package")` (line 21). -/
def PackageNameKey : String := "twirp.package"

/-- `ServiceNameKey = attribute.Key("twirp.service")` (line 24). -/
def ServiceNameKey : String := "twirp.service"

/-- `MethodNameKey = attribute.Key("twirp.method")` (line 27). -/
def MethodNameKey : String := "twirp.method"

/-- `ErrorCodeKey = attribute.Key("twirp.error_code")` (line 30). -/
def ErrorCodeKey : String := "twirp.error_code"

/-- `ErrorMessageKey = attribute.Key("twirp.error_message")` (line 33). -/
def ErrorMessageKey : String := "twirp.error_message"

/-- `semconv.RPCSystemKey` of semconv v1.10.0, the literal key `rpc.system`. -/
def RPCSystemKey : String := "rpc.system"

/-- `semconv.RPCMethodKey` of semconv v1.10.0, the literal key `rpc.method`. -/
def RPCMethodKey : String := "rpc.method"

/-- `semconv.RPCServiceKey` of semconv v1.10.0, the literal key `rpc.service`. -/
def RPCServiceKey : String := "rpc.service"

/-- `NoErrorCode = attribute.StringValue("ok")` (line 37). -/
def NoErrorCode : String := "ok"

/-- `attribute.KeyValue`: a key paired with a (here always string-valued)
attribute value. -/
structure KeyValue where
  Key : String
  Value : String
deriving DecidableEq, Repr

/-- A `trace.TracerProvider` reference, identified abstractly by a number.
The package never looks inside a provider; it only selects one. -/
structure TracerProvider where
  id : Nat
deriving DecidableEq, Repr

/-- The data this package reads from a span found in a context:
whether `span.SpanContext().IsValid()` holds, and the span's own
`TracerProvider()`. -/
structure CtxSpan where
  valid : Bool
  provider : TracerProvider
deriving DecidableEq, Repr

/-- The slice of `context.Context` visible to this package: the twirp
package/service/method names (each `none` when the context carries no such
value) and the current span, `none` when no span was installed. -/
structure Ctx where
  pkgName : Option String
  svcName : Option String
  methName : Option String
  span : Option CtxSpan
deriving DecidableEq, Repr

/-- `trace.SpanFromContext` returns a no-op span (invalid span context)
when the context carries none. -/
def noopSpan : CtxSpan := { valid := false, provider := { id := 0 } }

/-- `trace.SpanFromContext(ctx)`. -/
def spanFromContext (ctx : Ctx) : CtxSpan := ctx.span.getD noopSpan

/-- `type config struct { provider trace.TracerProvider }` (lines 39-41);
the nil-able interface field is an `Option`. -/
structure Config where
  provider : Option TracerProvider
deriving DecidableEq, Repr

/-- `config.getTracerProvider` (lines 43-53): explicit provider if
configured, else the provider of a valid parent span in the context, else
the process-wide default `otel.GetTracerProvider()` (passed in here as
`globalProvider`).  Total: resolution never fails. -/
def Config.getTracerProvider (c : Config) (ctx : Ctx) (globalProvider : TracerProvider) :
    TracerProvider :=
  match c.provider with
  | some p => p
  | none =>
    let sp := spanFromContext ctx
    if sp.valid then sp.provider else globalProvider

/-- `Option` / `optionFunc` (lines 56-64): an option is a mutation of the
configuration value.  Named `ConfigOption` because `Option` is taken in
Lean. -/
def ConfigOption := Config → Config

/-- `WithTracerProvider` (lines 70-74): sets the config's provider field. -/
def WithTracerProvider (provider : TracerProvider) : ConfigOption :=
  fun c => { c with provider := some provider }

/-- Option application in `interceptor` (lines 87-91):
`var c config; for _, o := range options { o.apply(&c) }` — the zero-value
config threaded left-to-right through the options. -/
def applyOptions (options : List ConfigOption) : Config :=
  options.foldl (fun c o => o c) { provider := none }

/-- A non-nil Go `error` value as this package distinguishes them:
either it implements `twirp.Error` (with `Code()` and `Msg()`), or it is a
plain error with only an `Error()` text. -/
inductive GoError where
  | twirpError (code : String) (msg : String)
  | plain (text : String)
deriving DecidableEq, Repr

/-- `err.Error()`.  twirp's error type renders as
`"twirp error <code>: <msg>"`; a plain error returns its text. -/
def GoError.errorString : GoError → String
  | .twirpError code msg => "twirp error " ++ code ++ ": " ++ msg
  | .plain text => text

/-- The `(Code(), Msg())` pair exposed by `twirp.Error`. -/
structure TwirpError where
  code : String
  msg : String
deriving DecidableEq, Repr

/-- The type assertion `twerr, ok := err.(twirp.Error)` (line 156). -/
def GoError.asTwirpError : GoError → Option TwirpError
  | .twirpError c m => some ⟨c, m⟩
  | .plain _ => none

/-- `twirp.Internal`: the twirp framework's internal-error code, the
literal string `"internal"`. -/
def Internal : String := "internal"

/-- `twirp.InternalErrorWith(err)` as observed through `Code()`/`Msg()`:
the twirp framework wraps a plain error as an internal error whose message
is the original error's `Error()` text. -/
def InternalErrorWith (e : GoError) : TwirpError :=
  { code := Internal, msg := e.errorString }

/-- Lines 156-159: use the error's own twirp classification when the type
assertion succeeds, otherwise reclassify via `twirp.InternalErrorWith`. -/
def reclassify (e : GoError) : TwirpError :=
  e.asTwirpError.getD (InternalErrorWith e)

/-- `getTwirpErrorAttributes` (lines 146-171). -/
def getTwirpErrorAttributes (err : Option GoError) : List KeyValue :=
  match err with
  | none => [{ Key := ErrorCodeKey, Value := NoErrorCode }]
  | some e =>
    let twerr := reclassify e
    [{ Key := ErrorCodeKey, Value := twerr.code },
     { Key := ErrorMessageKey, Value := twerr.msg }]

/-- `twirp.PackageName(ctx)` — `("", false)` when absent. -/
def packageName (ctx : Ctx) : String × Bool :=
  match ctx.pkgName with
  | some s => (s, true)
  | none => ("", false)

/-- `twirp.ServiceName(ctx)` — `("", false)` when absent. -/
def serviceName (ctx : Ctx) : String × Bool :=
  match ctx.svcName with
  | some s => (s, true)
  | none => ("", false)

/-- `twirp.MethodName(ctx)` — `("", false)` when absent. -/
def methodName (ctx : Ctx) : String × Bool :=
  match ctx.methName with
  | some s => (s, true)
  | none => ("", false)

/-- `commonAtrributes` (lines 120-144): the span name
`"<package>.<service>/<method>"` and the six base attributes. -/
def commonAtrributes (ctx : Ctx) : String × List KeyValue :=
  let pn := (packageName ctx).1
  let sn := (serviceName ctx).1
  let mn := (methodName ctx).1
  let fullMethod := pn ++ "." ++ sn ++ "/" ++ mn
  (fullMethod,
   [{ Key := PackageNameKey, Value := pn },
    { Key := ServiceNameKey, Value := sn },
    { Key := MethodNameKey, Value := mn },
    { Key := RPCSystemKey, Value := "twirp" },
    { Key := RPCMethodKey, Value := mn },
    { Key := RPCServiceKey, Value := pn ++ "." ++ sn }])

/-- `trace.SpanKind` as used by this package. -/
inductive SpanKind where
  | server
  | client
deriving DecidableEq, Repr

/-- OpenTelemetry status codes (`codes` package). -/
inductive StatusCode where
  | unset
  | error
  | ok
deriving DecidableEq, Repr

/-- A span status as set by `span.SetStatus(code, description)`. -/
structure SpanStatus where
  code : StatusCode
  description : String
deriving DecidableEq, Repr

/-- The per-call span state accumulated by the interceptor: name, kind and
attributes given at `tracer.Start`, status set by `SetStatus`, and the
number of `End()` calls. -/
structure Span where
  name : String
  kind : SpanKind
  attrs : List KeyValue
  status : Option SpanStatus
  endCount : Nat
deriving DecidableEq, Repr

/-- `span.SetStatus(code, description)`. -/
def Span.setStatus (s : Span) (code : StatusCode) (description : String) : Span :=
  { s with status := some { code := code, description := description } }

/-- `span.SetAttributes(kvs...)` appends attributes. -/
def Span.setAttributes (s : Span) (kvs : List KeyValue) : Span :=
  { s with attrs := s.attrs ++ kvs }

/-- `span.End()`. -/
def Span.endSpan (s : Span) : Span :=
  { s with endCount := s.endCount + 1 }

/-- `tracer.Start(ctx, name, WithAttributes(attrs...), WithSpanKind(kind))`
(lines 99-104): returns the context carrying the newly started span
(a recording span with a valid span context, created by the resolved
provider) and the span itself. -/
def startSpan (ctx : Ctx) (tp : TracerProvider) (name : String)
    (attrs : List KeyValue) (kind : SpanKind) : Ctx × Span :=
  ({ ctx with span := some { valid := true, provider := tp } },
   { name := name, kind := kind, attrs := attrs, status := none, endCount := 0 })

/-- Exit of the wrapped dispatch function: a normal return of
`(resp, err)` or a panic unwinding through the interceptor. -/
inductive Outcome (α : Type) where
  | ok (a : α)
  | panicked (msg : String)
deriving DecidableEq, Repr

/-- Lines 106-113 as seen by the span: `defer span.End()` runs on every
exit path, so on a panic only `End` runs; on a normal return the status is
set iff the error is non-nil (line 109-111, description `err.Error()`),
then the twirp error attributes are attached (line 113), then `End`. -/
def finishSpan {S : Type} (span : Span) (result : Outcome (S × Option GoError)) : Span :=
  match result with
  | .panicked _ => span.endSpan
  | .ok (_, err) =>
    let span1 :=
      match err with
      | some e => span.setStatus StatusCode.error e.errorString
      | none => span
    (span1.setAttributes (getTwirpErrorAttributes err)).endSpan

/-- The context handed to the wrapped dispatch function: the incoming
context with the started span installed (line 99 rebinds `ctx`). -/
def interceptedCtx (kind : SpanKind) (c : Config) (g : TracerProvider) (ctx : Ctx) : Ctx :=
  (startSpan ctx (c.getTracerProvider ctx g) (commonAtrributes ctx).1
    (commonAtrributes ctx).2 kind).1

/-- One invocation of the dispatch function produced by `interceptor`
(lines 94-116): resolve the tracer, derive name and base attributes, start
the span, invoke `next` with the new context and the original request,
finish the span per `finishSpan`, and return `next`'s result unchanged
(the panic, when `next` panicked, keeps unwinding).  Returns the result
together with the final span state. -/
def interceptorCall {R S : Type} (kind : SpanKind) (c : Config) (globalProvider : TracerProvider)
    (next : Ctx → R → Outcome (S × Option GoError)) (ctx : Ctx) (req : R) :
    Outcome (S × Option GoError) × Span :=
  let tp := c.getTracerProvider ctx globalProvider
  let (fullMethod, attributes) := commonAtrributes ctx
  let (ctx2, span) := startSpan ctx tp fullMethod attributes kind
  let result := next ctx2 req
  (result, finishSpan span result)

theorem finishSpan_endCount {S : Type} (span : Span)
    (result : Outcome (S × Option GoError)) :
    (finishSpan span result).endCount = span.endCount + 1 := by
  rcases result with ⟨_, e⟩ | p
  · cases e <;> simp [finishSpan, Span.endSpan, Span.setAttributes, Span.setStatus]
  · simp [finishSpan, Span.endSpan]

theorem finishSpan_status {S : Type} (span : Span) (resp : S) (err : Option GoError)
    (hs : span.status = none) :
    (finishSpan span (Outcome.ok (resp, err))).status =
      err.map (fun e => { code := StatusCode.error, description := e.errorString }) := by
  cases err with
  | none => simp [finishSpan, Span.endSpan, Span.setAttributes, hs]
  | some e => simp [finishSpan, Span.endSpan, Span.setAttributes, Span.setStatus]

/-- C1: a non-nil error that does not implement `twirp.Error` is classified
with code `twirp.Internal` and with the message of
`twirp.InternalErrorWith(err)`, i.e. the framework's standard wrapping of
the original error's text. -/
theorem unclassified_error_reclassified_internal (e : GoError)
    (h : e.asTwirpError = none) :
    getTwirpErrorAttributes (some e) =
      [{ Key := ErrorCodeKey, Value := Internal },
       { Key := ErrorMessageKey, Value := (InternalErrorWith e).msg }] := by
  simp [getTwirpErrorAttributes, reclassify, h, InternalErrorWith]

/-- Witness for C1 at the concrete plain error `"boom"`. -/
theorem unclassified_error_reclassified_internal_witness :
    getTwirpErrorAttributes (some (GoError.plain "boom")) =
      [{ Key := ErrorCodeKey, Value := Internal },
       { Key := ErrorMessageKey, Value := (InternalErrorWith (GoError.plain "boom")).msg }] :=
  unclassified_error_reclassified_internal (GoError.plain "boom") rfl

/-- C2: a nil error yields exactly one attribute, `twirp.error_code = "ok"`,
and no `twirp.error_message` attribute at all. -/
theorem nil_error_single_ok_attribute :
    getTwirpErrorAttributes none = [{ Key := ErrorCodeKey, Value := NoErrorCode }] ∧
    (getTwirpErrorAttributes none).length = 1 ∧
    ((getTwirpErrorAttributes none).all fun kv => kv.Key != ErrorMessageKey) = true := by
  refine ⟨rfl, rfl, ?_⟩
  decide

/-- C3: an error already implementing `twirp.Error` keeps its code and
message verbatim in the attributes, and the reclassifier is idempotent:
re-applying it to an already-classified error returns the same
(code, message) pair. -/
theorem reclassification_idempotent (c m : String) :
    reclassify (GoError.twirpError c m) = { code := c, msg := m } ∧
    getTwirpErrorAttributes (some (GoError.twirpError c m)) =
      [{ Key := ErrorCodeKey, Value := c }, { Key := ErrorMessageKey, Value := m }] ∧
    ∀ e : GoError,
      reclassify (GoError.twirpError (reclassify e).code (reclassify e).msg) = reclassify e := by
  refine ⟨rfl, rfl, fun e => ?_⟩
  simp [reclassify, GoError.asTwirpError]

/-- C4: the interceptor-produced dispatch function returns exactly the
response and error value (or the panic) produced by the wrapped dispatch
function — identity pass-through, even when an unclassified error was
reclassified for the span attributes. -/
theorem interceptor_passthrough {R S : Type} (kind : SpanKind) (c : Config)
    (g : TracerProvider) (next : Ctx → R → Outcome (S × Option GoError))
    (ctx : Ctx) (req : R) (o : Outcome (S × Option GoError))
    (h : next (interceptedCtx kind c g ctx) req = o) :
    (interceptorCall kind c g next ctx req).1 = o := by
  simp only [interceptorCall, interceptedCtx] at h ⊢
  exact h

/-- Witness for C4: a wrapped call returning response `7` and a plain
error is passed through unchanged. -/
theorem interceptor_passthrough_witness :
    (interceptorCall SpanKind.server { provider := none } { id := 1 }
        (fun _ _ => Outcome.ok ((7 : Nat), some (GoError.plain "x")))
        { pkgName := none, svcName := none, methName := none, span := none }
        (3 : Nat)).1 =
      Outcome.ok ((7 : Nat), some (GoError.plain "x")) :=
  interceptor_passthrough SpanKind.server { provider := none } { id := 1 }
    (fun _ _ => Outcome.ok ((7 : Nat), some (GoError.plain "x")))
    { pkgName := none, svcName := none, methName := none, span := none }
    (3 : Nat) (Outcome.ok ((7 : Nat), some (GoError.plain "x"))) rfl

/-- C5: the derived span name is the literal concatenation
`"<package>.<service>/<method>"` of the extracted (possibly empty) names;
for `"p"`, `"S"`, `"M"` it is `"p.S/M"`, and with all components empty (or
absent) it is `"./"`, no placeholder substituted. -/
theorem span_name_composition (ctx : Ctx) :
    (commonAtrributes ctx).1 =
      (packageName ctx).1 ++ "." ++ (serviceName ctx).1 ++ "/" ++ (methodName ctx).1 ∧
    (commonAtrributes
      { pkgName := some "p", svcName := some "S", methName := some "M", span := none }).1 =
      "p.S/M" ∧
    (commonAtrributes
      { pkgName := some "", svcName := some "", methName := some "", span := none }).1 = "./" ∧
    (commonAtrributes
      { pkgName := none, svcName := none, methName := none, span := none }).1 = "./" := by
  exact ⟨rfl, rfl, rfl, rfl⟩

/-- C6: tracer-provider resolution is a total three-tier fallback:
an explicitly configured provider wins; otherwise a valid parent span's
provider is used; otherwise (no span, or an invalid span context) the
process-wide default provider is used. -/
theorem tracer_provider_fallback :
    (∀ (p : TracerProvider) (ctx : Ctx) (g : TracerProvider),
      Config.getTracerProvider { provider := some p } ctx g = p) ∧
    (∀ (tp g : TracerProvider) (pn sn mn : Option String),
      Config.getTracerProvider { provider := none }
        { pkgName := pn, svcName := sn, methName := mn,
          span := some { valid := true, provider := tp } } g = tp) ∧
    (∀ (g : TracerProvider) (pn sn mn : Option String),
      Config.getTracerProvider { provider := none }
        { pkgName := pn, svcName := sn, methName := mn, span := none } g = g) ∧
    (∀ (tp g : TracerProvider) (pn sn mn : Option String),
      Config.getTracerProvider { provider := none }
        { pkgName := pn, svcName := sn, methName := mn,
          span := some { valid := false, provider := tp } } g = g) := by
  refine ⟨fun p ctx g => rfl, fun tp g pn sn mn => rfl, fun g pn sn mn => rfl,
    fun tp g pn sn mn => rfl⟩

/-- C7: the base attributes are exactly six string-valued key/values:
`twirp.package`, `twirp.service`, `twirp.method` with the extracted names,
`rpc.system = "twirp"`, `rpc.method = <method>`, and
`rpc.service = "<package>.<service>"`. -/
theorem base_attributes_exact (ctx : Ctx) :
    (commonAtrributes ctx).2 =
      [{ Key := PackageNameKey, Value := (packageName ctx).1 },
       { Key := ServiceNameKey, Value := (serviceName ctx).1 },
       { Key := MethodNameKey, Value := (methodName ctx).1 },
       { Key := RPCSystemKey, Value := "twirp" },
       { Key := RPCMethodKey, Value := (methodName ctx).1 },
       { Key := RPCServiceKey, Value := (packageName ctx).1 ++ "." ++ (serviceName ctx).1 }] ∧
    (commonAtrributes ctx).2.length = 6 := by
  exact ⟨rfl, rfl⟩

/-- C8: the span status after a call is `error` with description
`err.Error()` exactly when the wrapped call returned a non-nil error, and
remains unset (no status) when the error is nil. -/
theorem span_status_iff_error {R S : Type} (kind : SpanKind) (c : Config)
    (g : TracerProvider) (next : Ctx → R → Outcome (S × Option GoError))
    (ctx : Ctx) (req : R) (resp : S) (err : Option GoError)
    (h : next (interceptedCtx kind c g ctx) req = Outcome.ok (resp, err)) :
    (interceptorCall kind c g next ctx req).2.status =
      err.map (fun e => { code := StatusCode.error, description := e.errorString }) := by
  simp only [interceptorCall, interceptedCtx] at h ⊢
  rw [h, finishSpan_status _ _ _ rfl]

/-- Witness for C8: with an erroring wrapped call the status is `error`
with the error text; with a successful one no status is set. -/
theorem span_status_iff_error_witness :
    (interceptorCall SpanKind.client { provider := none } { id := 1 }
        (fun _ _ => Outcome.ok ((0 : Nat), some (GoError.plain "bad")))
        { pkgName := none, svcName := none, methName := none, span := none }
        (0 : Nat)).2.status =
      some { code := StatusCode.error, description := "bad" } ∧
    (interceptorCall SpanKind.client { provider := none } { id := 1 }
        (fun _ _ => Outcome.ok ((0 : Nat), (none : Option GoError)))
        { pkgName := none, svcName := none, methName := none, span := none }
        (0 : Nat)).2.status = none := by
  constructor
  · exact span_status_iff_error SpanKind.client { provider := none } { id := 1 }
      (fun _ _ => Outcome.ok ((0 : Nat), some (GoError.plain "bad")))
      { pkgName := none, svcName := none, methName := none, span := none }
      (0 : Nat) (0 : Nat) (some (GoError.plain "bad")) rfl
  · exact span_status_iff_error SpanKind.client { provider := none } { id := 1 }
      (fun _ _ => Outcome.ok ((0 : Nat), (none : Option GoError)))
      { pkgName := none, svcName := none, methName := none, span := none }
      (0 : Nat) (0 : Nat) (none : Option GoError) rfl

/-- C9: the span is ended exactly once on every exit path of the wrapped
call — both on a normal return and when the wrapped call panics — thanks
to the deferred `span.End()`. -/
theorem span_ended_exactly_once {R S : Type} (kind : SpanKind) (c : Config)
    (g : TracerProvider) (next : Ctx → R → Outcome (S × Option GoError))
    (ctx : Ctx) (req : R) :
    (interceptorCall kind c g next ctx req).2.endCount = 1 := by
  simp [interceptorCall, startSpan, finishSpan_endCount]

/-- C10: options are folded over the configuration in the order given, so
when several `WithTracerProvider` options are supplied the last one's
provider is the one captured, and tracer resolution then returns exactly
that provider on every call. -/
theorem last_with_tracer_provider_wins (opts : List ConfigOption) (p : TracerProvider) :
    (applyOptions (opts ++ [WithTracerProvider p])).provider = some p ∧
    ∀ (ctx : Ctx) (g : TracerProvider),
      Config.getTracerProvider (applyOptions (opts ++ [WithTracerProvider p])) ctx g = p := by
  have hp : (applyOptions (opts ++ [WithTracerProvider p])).provider = some p := by
    simp [applyOptions, List.foldl_append, WithTracerProvider]
  refine ⟨hp, fun ctx g => ?_⟩
  simp [Config.getTracerProvider, hp]

end Twirpotel
